import Mathlib

/-!
Verification development for the Stripe failed-payment monitor
(`src/index.js`).  The embedding models the webhook dispatcher, the
event normalizer, the two side-effect channels (Gmail notification and
Airtable record store) and the bounded in-memory log sink.  External
calls (signature verification, the Gmail send, the Airtable create) are
modelled as oracles supplied through an environment record, so every
definition is executable.  JavaScript `x || y` defaulting is modelled
with its truthiness semantics (both `undefined`/`null` and the empty
string select the fallback), and `undefined` values are modelled with
`Option`.
-/

namespace StripeMonitor

/-! ## Upstream event payload shapes -/

/-- Optional `last_payment_error` object carried by a payment intent. -/
structure LastPaymentError where
  code : Option String
  message : Option String
deriving DecidableEq, Repr

/-- Fields of a Stripe payment-intent object read by the normalizer. -/
structure PaymentIntent where
  id : String
  receipt_email : Option String
  amount : Int
  currency : String
  last_payment_error : Option LastPaymentError
deriving DecidableEq, Repr

/-- Fields of a Stripe invoice object read by the normalizer. -/
structure Invoice where
  id : String
  customer_email : Option String
  amount_due : Int
  currency : String
deriving DecidableEq, Repr

/-- Billing details nested inside a charge object. -/
structure BillingDetails where
  email : Option String
deriving DecidableEq, Repr

/-- Fields of a Stripe charge object read by the normalizer. -/
structure Charge where
  id : String
  receipt_email : Option String
  billing_details : Option BillingDetails
  amount : Int
  currency : String
  failure_code : Option String
  failure_message : Option String
deriving DecidableEq, Repr

/-- Payload of an event envelope: one of the three recognized shapes, or
any other event type carrying its type string. -/
inductive EventObject where
  | paymentIntent (pi : PaymentIntent)
  | invoice (inv : Invoice)
  | charge (ch : Charge)
  | other (t : String)
deriving DecidableEq, Repr

/-- Event envelope: creation time (epoch seconds) plus the payload. -/
structure Event where
  created : Nat
  data : EventObject
deriving DecidableEq, Repr

/-- The `type` tag of the envelope, as the code reads `event.type`. -/
def EventObject.typeTag : EventObject → String
  | .paymentIntent _ => "payment_intent.payment_failed"
  | .invoice _ => "invoice.payment_failed"
  | .charge _ => "charge.failed"
  | .other t => t

/-- The envelope type string. -/
def Event.type (e : Event) : String := e.data.typeTag

/-- True when the payload is one of the three recognized shapes. -/
def Event.recognizedShape (e : Event) : Bool :=
  match e.data with
  | .paymentIntent _ => true
  | .invoice _ => true
  | .charge _ => true
  | .other _ => false

/-- The list of recognized event types checked by the webhook handler
(`['payment_intent.payment_failed', 'invoice.payment_failed',
'charge.failed'].includes(event.type)`). -/
def recognizedTypes : List String :=
  ["payment_intent.payment_failed", "invoice.payment_failed", "charge.failed"]

/-! ## JavaScript value helpers -/

/-- JavaScript `x || d` for a possibly-undefined string `x` with a string
default: `undefined`, `null` and the empty string are falsy. -/
def jsOr (a : Option String) (d : String) : String :=
  match a with
  | none => d
  | some s => if s == "" then d else s

/-- JavaScript `x || y` where both operands may be undefined strings. -/
def jsOrOpt (a b : Option String) : Option String :=
  match a with
  | none => b
  | some s => if s == "" then b else some s

/-- Rendering of a possibly-undefined string inside a template literal:
JavaScript prints `undefined` for the missing value. -/
def showJs : Option String → String
  | none => "undefined"
  | some s => s

/-! ## The canonical Failed-Payment record -/

/-- The canonical record built by `processFailedPayment`.  Every field is
an `Option` because the JavaScript object may carry `undefined` in any
position (the empty object `{}` is the all-`none` record). -/
structure PaymentData where
  payment_id : Option String
  customer_email : Option String
  amount : Option Int
  currency : Option String
  failure_code : Option String
  failure_message : Option String
  failed_at : Option String
deriving DecidableEq, Repr

/-- The record produced for an unrecognized payload (`let paymentData = {}`). -/
def emptyPaymentData : PaymentData :=
  ⟨none, none, none, none, none, none, none⟩

/-! ## Time conversion (`new Date(event.created * 1000).toISOString()`) -/

/-- Left-pad a number to two digits. -/
def pad2 (n : Nat) : String :=
  if n < 10 then "0" ++ toString n else toString n

/-- Left-pad a number to three digits. -/
def pad3 (n : Nat) : String :=
  if n < 10 then "00" ++ toString n
  else if n < 100 then "0" ++ toString n
  else toString n

/-- Left-pad a number to four digits. -/
def pad4 (n : Nat) : String :=
  if n < 10 then "000" ++ toString n
  else if n < 100 then "00" ++ toString n
  else if n < 1000 then "0" ++ toString n
  else toString n

/-- Convert a count of days since 1970-01-01 to a civil (year, month,
day) date, proleptic Gregorian calendar. -/
def civilFromDays (days : Nat) : Nat × Nat × Nat :=
  let z := days + 719468
  let era := z / 146097
  let doe := z % 146097
  let yoe := (doe - doe / 1460 + doe / 36524 - doe / 146096) / 365
  let y := yoe + era * 400
  let doy := doe - (365 * yoe + yoe / 4 - yoe / 100)
  let mp := (5 * doy + 2) / 153
  let d := doy - (153 * mp + 2) / 5 + 1
  let m := if mp < 10 then mp + 3 else mp - 9
  (if m ≤ 2 then y + 1 else y, m, d)

/-- The ISO-8601 instant string produced by JavaScript
`new Date(ms).toISOString()` for a non-negative epoch-millisecond
value (years up to 9999). -/
def isoOfEpochMillis (ms : Nat) : String :=
  let s := ms / 1000
  let milli := ms % 1000
  let days := s / 86400
  let secs := s % 86400
  let ymd := civilFromDays days
  pad4 ymd.1 ++ "-" ++ pad2 ymd.2.1 ++ "-" ++ pad2 ymd.2.2 ++ "T" ++
    pad2 (secs / 3600) ++ ":" ++ pad2 (secs % 3600 / 60) ++ ":" ++
    pad2 (secs % 60) ++ "." ++ pad3 milli ++ "Z"

/-! ## The Event Normalizer (the if-chain in `processFailedPayment`) -/

/-- Mapping of one event envelope to the canonical record, exactly as
the if-chain of `processFailedPayment` builds `paymentData`; an
unrecognized payload leaves the record the empty object. -/
def normalizeEvent (e : Event) : PaymentData :=
  match e.data with
  | .paymentIntent pi =>
      { payment_id := some pi.id
        customer_email := some (jsOr pi.receipt_email "Unknown")
        amount := some pi.amount
        currency := some pi.currency
        failure_code := pi.last_payment_error.bind (fun le => le.code)
        failure_message := pi.last_payment_error.bind (fun le => le.message)
        failed_at := some (isoOfEpochMillis (e.created * 1000)) }
  | .invoice inv =>
      { payment_id := some inv.id
        customer_email := some (jsOr inv.customer_email "Unknown")
        amount := some inv.amount_due
        currency := some inv.currency
        failure_code := some "invoice_payment_failed"
        failure_message := some "Invoice payment failed"
        failed_at := some (isoOfEpochMillis (e.created * 1000)) }
  | .charge ch =>
      { payment_id := some ch.id
        customer_email := some (jsOr
          (jsOrOpt ch.receipt_email (ch.billing_details.bind (fun b => b.email)))
          "Unknown")
        amount := some ch.amount
        currency := some ch.currency
        failure_code := ch.failure_code
        failure_message := ch.failure_message
        failed_at := some (isoOfEpochMillis (e.created * 1000)) }
  | .other _ => emptyPaymentData

/-! ## External collaborators -/

/-- The row sent to the Airtable `Failed Payments` table, with the field
defaults applied by `addToAirtable`.  The Amount cell holds the exact
value of `paymentData.amount / 100` (`none` models the NaN produced
when the amount is undefined). -/
structure AirtableFields where
  paymentId : Option String
  customerEmail : String
  amount : Option Rat
  currency : String
  failureCode : String
  failureMessage : String
  failedAt : Option String
  status : String
  createdAt : String
deriving DecidableEq, Repr

/-- Outcomes of the external calls made during one delivery, plus
configuration: the alert recipient (`process.env.ALERT_EMAIL`), the
Gmail send call as a function of the raw message, the Airtable create
call as a function of the row being created, and the wall-clock
timestamp used for the row's Created At field. -/
structure Env where
  alertEmail : Option String
  gmailSend : String → Except String Unit
  airtableCreate : AirtableFields → Except String String
  now : String

/-- Stands for the message of the TypeError raised when
`paymentData.currency` is undefined and `.toUpperCase()` is called. -/
def typeErrorToUpper : String :=
  "TypeError: cannot read toUpperCase of undefined"

/-- Dollar rendering of the minor-unit amount, as
`(paymentData.amount / 100).toFixed(2)` renders it (an undefined amount
renders as NaN; the exact decimal value is used in place of the
binary float). -/
def amountDollars : Option Int → String
  | none => "NaN"
  | some cents =>
      let n := cents.natAbs
      (if cents < 0 then "-" else "") ++ toString (n / 100) ++ "." ++ pad2 (n % 100)

/-- Subject line of the alert email. -/
def gmailSubject (pd : PaymentData) : String :=
  "🚨 Payment Failed Alert - " ++ jsOr pd.customer_email "Unknown Customer"

/-- Body of the alert email; `c` is the (defined) currency code. -/
def gmailBody (pd : PaymentData) (c : String) : String :=
  "\nPayment Failure Detected!\n\nDetails:\n- Payment ID: " ++
    showJs pd.payment_id ++
  "\n- Customer: " ++ jsOr pd.customer_email "Not available" ++
  "\n- Amount: $" ++ amountDollars pd.amount ++ " " ++ c.toUpper ++
  "\n- Failure Code: " ++ jsOr pd.failure_code "Not specified" ++
  "\n- Failure Message: " ++ jsOr pd.failure_message "Not specified" ++
  "\n- Date: " ++ showJs pd.failed_at ++
  "\n\nPlease review and take appropriate action.\n\nBest regards,\nFailed Payments Monitor\n    "

/-- The raw RFC-822 message handed to the Gmail API (the base64url
transport encoding belongs to the external call and is not modelled). -/
def gmailMessage (pd : PaymentData) (c : String) (alertEmail : Option String) : String :=
  "Content-Type: text/plain; charset=\"UTF-8\"\n" ++
  "MIME-Version: 1.0\n" ++
  "To: " ++ jsOr alertEmail "admin@example.com" ++ "\n" ++
  "Subject: " ++ gmailSubject pd ++ "\n\n" ++
  gmailBody pd c

/-- The Notification Channel, `sendGmailAlert`.  The whole body sits in
a try/catch whose catch only logs, so the function always resolves.
When the currency is undefined the body construction throws before the
send (caught and logged); otherwise the send outcome comes from the
environment oracle.  Returns the log messages it appends and its
resolve/reject outcome. -/
def sendGmailAlert (pd : PaymentData) (env : Env) : List String × Except String Unit :=
  match pd.currency with
  | none => (["Error sending Gmail alert: " ++ typeErrorToUpper], .ok ())
  | some c =>
      match env.gmailSend (gmailMessage pd c env.alertEmail) with
      | .ok _ => (["Gmail alert sent for payment " ++ showJs pd.payment_id], .ok ())
      | .error m => (["Error sending Gmail alert: " ++ m], .ok ())

/-- The row built by `addToAirtable` once the currency is known defined. -/
def mkAirtableFields (pd : PaymentData) (c : String) (now : String) : AirtableFields :=
  { paymentId := pd.payment_id
    customerEmail := jsOr pd.customer_email "Unknown"
    amount := pd.amount.map (fun a => (a : Rat) / 100)
    currency := c.toUpper
    failureCode := jsOr pd.failure_code "Unknown"
    failureMessage := jsOr pd.failure_message "Unknown"
    failedAt := pd.failed_at
    status := "New"
    createdAt := now }

/-- The Record Store Channel, `addToAirtable`.  Its catch logs the
error and rethrows, so a failure rejects.  An undefined currency throws
while the row object is being built, before the create call. -/
def addToAirtable (pd : PaymentData) (env : Env) : List String × Except String Unit :=
  match pd.currency with
  | none => (["Error adding to Airtable: " ++ typeErrorToUpper], .error typeErrorToUpper)
  | some c =>
      match env.airtableCreate (mkAirtableFields pd c env.now) with
      | .ok rid => (["Added failed payment record to Airtable: " ++ rid], .ok ())
      | .error m => (["Error adding to Airtable: " ++ m], .error m)

/-! ## The dispatcher -/

/-- Observable processing steps of one delivery, in execution order:
the normalizer producing the record, the Notification Channel
invocation, and the Record Store Channel invocation. -/
inductive Step where
  | normalized (pd : PaymentData)
  | email (pd : PaymentData)
  | store (pd : PaymentData)
deriving DecidableEq, Repr

/-- The function `processFailedPayment`: normalize, send the alert,
append the row, with its try/catch logging and rethrowing any error.
Returns the log messages, the ordered step trace, and the
resolve/reject outcome. -/
def processFailedPayment (e : Event) (env : Env) :
    List String × List Step × Except String Unit :=
  let pd := normalizeEvent e
  let l0 := ["Processing failed payment: " ++ showJs pd.payment_id]
  let g := sendGmailAlert pd env
  match g.2 with
  | .error m =>
      (l0 ++ g.1 ++ ["Error processing failed payment: " ++ m],
       [.normalized pd, .email pd], .error m)
  | .ok _ =>
      let a := addToAirtable pd env
      match a.2 with
      | .ok _ =>
          (l0 ++ g.1 ++ a.1 ++
             ["Successfully processed failed payment: " ++ showJs pd.payment_id],
           [.normalized pd, .email pd, .store pd], .ok ())
      | .error m =>
          (l0 ++ g.1 ++ a.1 ++ ["Error processing failed payment: " ++ m],
           [.normalized pd, .email pd, .store pd], .error m)

/-- Body of an HTTP response from the webhook endpoint.
`webhookError m` renders as the text `Webhook Error: ` followed by the
verification error message; `receivedTrue` is the JSON acknowledgment. -/
inductive RespBody where
  | receivedTrue
  | webhookError (m : String)
  | internalServerError
deriving DecidableEq, Repr

/-- An HTTP response: status code and body. -/
structure Resp where
  status : Nat
  body : RespBody
deriving DecidableEq, Repr

/-- The `POST /webhook/stripe` handler.  The outcome of
`stripe.webhooks.constructEvent` (external signature verification over
the raw body) is passed in as `verif`.  Returns the response, the log
messages appended during the delivery, and the step trace. -/
def handleWebhook (verif : Except String Event) (env : Env) :
    Resp × List String × List Step :=
  match verif with
  | .error m =>
      (⟨400, .webhookError m⟩,
       ["Webhook signature verification failed: " ++ m], [])
  | .ok e =>
      if e.type ∈ recognizedTypes then
        let p := processFailedPayment e env
        match p.2.2 with
        | .ok _ =>
            (⟨200, .receivedTrue⟩,
             p.1 ++ ["Webhook processed successfully: " ++ e.type], p.2.1)
        | .error m =>
            (⟨500, .internalServerError⟩,
             p.1 ++ ["Error processing webhook: " ++ m], p.2.1)
      else
        (⟨200, .receivedTrue⟩, ["Unhandled event type: " ++ e.type], [])

/-! ## The Log Sink (`addLog`) -/

/-- One entry of the in-memory log. -/
structure LogEntry where
  timestamp : String
  message : String
deriving DecidableEq, Repr

/-- The function `addLog`: push the entry, then trim to the last 50
entries when the length exceeds 50 (`logs = logs.slice(-50)`). -/
def addLog (logs : List LogEntry) (entry : LogEntry) : List LogEntry :=
  let l := logs ++ [entry]
  if 50 < l.length then l.drop (l.length - 50) else l

/-- The sink contents after a sequence of appends starting empty. -/
def runLog (entries : List LogEntry) : List LogEntry :=
  List.foldl addLog [] entries

/-- The last `n` elements of a list. -/
def takeLast (n : Nat) (l : List α) : List α := l.drop (l.length - n)

/-! ## Sample inputs -/

/-- A charge-failed envelope with every optional field supplied. -/
def sampleChargeEvent : Event :=
  ⟨1700000000, .charge
    ⟨"ch_1", some "a@b.com", none, 999, "usd",
     some "card_declined", some "Card was declined."⟩⟩

/-- A payment-intent-failed envelope whose payload has no
`last_payment_error` object and no receipt email. -/
def samplePIEvent : Event :=
  ⟨1700000000, .paymentIntent ⟨"pi_1", none, 2500, "usd", none⟩⟩

/-- An invoice-payment-failed envelope. -/
def sampleInvoiceEvent : Event :=
  ⟨1700000000, .invoice ⟨"in_1", some "c@d.com", 4200, "eur"⟩⟩

/-- A charge-failed envelope whose receipt email is present but empty
while the billing-details email is a real address. -/
def sampleEmptyReceiptEvent : Event :=
  ⟨1700000000, .charge
    ⟨"ch_2", some "", some ⟨some "b@x.com"⟩, 999, "usd", none, none⟩⟩

/-- An authentic envelope of an unrecognized event type. -/
def sampleOtherEvent : Event := ⟨1700000000, .other "customer.created"⟩

/-- An environment in which both external channels succeed. -/
def envAllOk : Env :=
  ⟨some "ops@example.com", fun _ => .ok (), fun _ => .ok "recOK",
   "2024-05-01T00:00:00.000Z"⟩

/-- An environment in which every Gmail send fails and every Airtable
create succeeds. -/
def envGmailFail : Env :=
  ⟨some "ops@example.com", fun _ => .error "gmail down", fun _ => .ok "rec123",
   "2024-05-01T00:00:00.000Z"⟩

/-- A canonical record whose optional fields are absent or empty but
whose currency is defined. -/
def sparsePaymentData : PaymentData :=
  ⟨some "py_1", none, some 100, some "usd", none, some "",
   some "2024-01-01T00:00:00.000Z"⟩

/-! ## Amended-claim reference definitions -/

/-- Reference definition for the amended C8 claim: the billing-details
email when present and non-empty, else the sentinel. -/
def chargeBillingFallback (b : Option String) : String :=
  match b with
  | some s => if s = "" then "Unknown" else s
  | none => "Unknown"

/-- Reference definition for the amended C8 claim: the receipt email
when present and non-empty, else the billing-details email when present
and non-empty, else the sentinel. -/
def chargeEmailAmended (ch : Charge) : String :=
  match ch.receipt_email with
  | some r =>
      if r = "" then chargeBillingFallback (ch.billing_details.bind (fun b => b.email))
      else r
  | none => chargeBillingFallback (ch.billing_details.bind (fun b => b.email))

/-! ## Helper lemmas -/

theorem jsOr_some_ne (s d : String) (h : s ≠ "") : jsOr (some s) d = s := by
  have hb : (s == "") = false := by simpa using h
  simp [jsOr, hb]

theorem jsOrOpt_some_ne (s : String) (b : Option String) (h : s ≠ "") :
    jsOrOpt (some s) b = some s := by
  have hb : (s == "") = false := by simpa using h
  simp [jsOrOpt, hb]

theorem jsOr_ne_empty (a : Option String) (d : String) (hd : d ≠ "") :
    jsOr a d ≠ "" := by
  cases a with
  | none => exact hd
  | some s =>
    simp only [jsOr]
    by_cases h : s = ""
    · simp [h, hd]
    · have hb : (s == "") = false := by simpa using h
      simp [hb, h]

theorem sendGmailAlert_resolves (pd : PaymentData) (env : Env) :
    (sendGmailAlert pd env).2 = .ok () := by
  rcases hc : pd.currency with _ | c
  · simp [sendGmailAlert, hc]
  · rcases hg : env.gmailSend (gmailMessage pd c env.alertEmail) with _ | m <;>
      simp [sendGmailAlert, hc, hg]

theorem normalize_currency_some (e : Event) (h : e.recognizedShape = true) :
    ∃ c, (normalizeEvent e).currency = some c := by
  obtain ⟨cr, d⟩ := e
  cases d with
  | paymentIntent pi => exact ⟨pi.currency, rfl⟩
  | invoice inv => exact ⟨inv.currency, rfl⟩
  | charge ch => exact ⟨ch.currency, rfl⟩
  | other t => simp [Event.recognizedShape] at h

theorem recognizedShape_mem (e : Event) (h : e.recognizedShape = true) :
    e.type ∈ recognizedTypes := by
  obtain ⟨cr, d⟩ := e
  cases d with
  | paymentIntent pi => simp [Event.type, EventObject.typeTag, recognizedTypes]
  | invoice inv => simp [Event.type, EventObject.typeTag, recognizedTypes]
  | charge ch => simp [Event.type, EventObject.typeTag, recognizedTypes]
  | other t => simp [Event.recognizedShape] at h

theorem sendGmailAlert_of_error (pd : PaymentData) (env : Env) (m c : String)
    (hc : pd.currency = some c) (hg : ∀ s, env.gmailSend s = .error m) :
    sendGmailAlert pd env = (["Error sending Gmail alert: " ++ m], .ok ()) := by
  simp [sendGmailAlert, hc, hg]

theorem addToAirtable_of_ok (pd : PaymentData) (env : Env) (rid c : String)
    (hc : pd.currency = some c) (ha : ∀ f, env.airtableCreate f = .ok rid) :
    addToAirtable pd env =
      (["Added failed payment record to Airtable: " ++ rid], .ok ()) := by
  simp [addToAirtable, hc, ha]

theorem processFailedPayment_steps (e : Event) (env : Env) :
    (processFailedPayment e env).2.1 =
      [.normalized (normalizeEvent e), .email (normalizeEvent e),
       .store (normalizeEvent e)] := by
  unfold processFailedPayment
  simp only [sendGmailAlert_resolves]
  rcases ha : (addToAirtable (normalizeEvent e) env).2 with _ | m <;> simp [ha]

theorem handleWebhook_steps (e : Event) (env : Env)
    (h : e.recognizedShape = true) :
    (handleWebhook (.ok e) env).2.2 = (processFailedPayment e env).2.1 := by
  unfold handleWebhook
  simp only [recognizedShape_mem e h, if_pos]
  rcases hp : (processFailedPayment e env).2.2 with _ | m <;> simp [hp]

theorem processFailedPayment_gmailFail (e : Event) (env : Env) (m rid : String)
    (h : e.recognizedShape = true)
    (hg : ∀ s, env.gmailSend s = .error m)
    (ha : ∀ f, env.airtableCreate f = .ok rid) :
    processFailedPayment e env =
      (["Processing failed payment: " ++ showJs (normalizeEvent e).payment_id,
        "Error sending Gmail alert: " ++ m,
        "Added failed payment record to Airtable: " ++ rid,
        "Successfully processed failed payment: " ++
          showJs (normalizeEvent e).payment_id],
       [.normalized (normalizeEvent e), .email (normalizeEvent e),
        .store (normalizeEvent e)],
       .ok ()) := by
  obtain ⟨c, hc⟩ := normalize_currency_some e h
  unfold processFailedPayment
  simp only [sendGmailAlert_of_error _ _ _ _ hc hg,
    addToAirtable_of_ok _ _ _ _ hc ha]
  simp

theorem takeLast_of_le {n : Nat} {l : List α} (h : l.length ≤ n) :
    takeLast n l = l := by
  unfold takeLast
  rw [Nat.sub_eq_zero_of_le h, List.drop_zero]

theorem takeLast_append_right (n : Nat) (p q : List α) (h : n ≤ q.length) :
    takeLast n (p ++ q) = takeLast n q := by
  unfold takeLast
  rw [List.length_append]
  have h2 : p.length + q.length - n = p.length + (q.length - n) := by omega
  rw [h2, List.drop_append]

theorem takeLast_takeLast_append (n : Nat) (l r : List α) :
    takeLast n (takeLast n l ++ r) = takeLast n (l ++ r) := by
  by_cases h : l.length ≤ n
  · rw [takeLast_of_le h]
  · have e1 : takeLast n l = l.drop (l.length - n) := rfl
    rw [e1]
    conv_rhs => rw [← List.take_append_drop (l.length - n) l, List.append_assoc]
    have hq : n ≤ (l.drop (l.length - n) ++ r).length := by
      rw [List.length_append, List.length_drop]; omega
    rw [takeLast_append_right n _ _ hq]

theorem addLog_eq (s : List LogEntry) (e : LogEntry) :
    addLog s e = takeLast 50 (s ++ [e]) := by
  show (if 50 < (s ++ [e]).length then (s ++ [e]).drop ((s ++ [e]).length - 50)
        else s ++ [e]) = (s ++ [e]).drop ((s ++ [e]).length - 50)
  by_cases hl : 50 < (s ++ [e]).length
  · rw [if_pos hl]
  · rw [if_neg hl]
    have h0 : (s ++ [e]).length - 50 = 0 := by omega
    rw [h0, List.drop_zero]

theorem addLog_length (s : List LogEntry) (e : LogEntry) :
    (addLog s e).length ≤ 50 := by
  rw [addLog_eq s e]
  unfold takeLast
  rw [List.length_drop]
  omega

theorem foldl_addLog (es : List LogEntry) :
    ∀ s : List LogEntry, s.length ≤ 50 →
      List.foldl addLog s es = takeLast 50 (s ++ es) := by
  induction es with
  | nil => intro s h; simp [takeLast_of_le h]
  | cons e es ih =>
      intro s _h
      rw [List.foldl_cons, ih (addLog s e) (addLog_length s e), addLog_eq s e,
        takeLast_takeLast_append]
      congr 1
      simp

/-! ## Claim theorems -/

/-- C3: for every envelope of one of the three recognized shapes, the
normalizer copies the upstream amount (`amount` or `amount_due`) and
currency unchanged, and sets `failed_at` to the envelope creation time
(epoch seconds) converted to an ISO-8601 instant string. -/
theorem C3_amount_currency_failedAt (ev : Event) (h : ev.recognizedShape = true) :
    (∀ pi, ev.data = .paymentIntent pi →
       (normalizeEvent ev).amount = some pi.amount ∧
       (normalizeEvent ev).currency = some pi.currency) ∧
    (∀ inv, ev.data = .invoice inv →
       (normalizeEvent ev).amount = some inv.amount_due ∧
       (normalizeEvent ev).currency = some inv.currency) ∧
    (∀ ch, ev.data = .charge ch →
       (normalizeEvent ev).amount = some ch.amount ∧
       (normalizeEvent ev).currency = some ch.currency) ∧
    (normalizeEvent ev).failed_at = some (isoOfEpochMillis (ev.created * 1000)) := by
  obtain ⟨cr, d⟩ := ev
  cases d with
  | paymentIntent pi =>
      refine ⟨?_, ?_, ?_, rfl⟩ <;> (intro x hx; cases hx <;> exact ⟨rfl, rfl⟩)
  | invoice inv =>
      refine ⟨?_, ?_, ?_, rfl⟩ <;> (intro x hx; cases hx <;> exact ⟨rfl, rfl⟩)
  | charge ch =>
      refine ⟨?_, ?_, ?_, rfl⟩ <;> (intro x hx; cases hx <;> exact ⟨rfl, rfl⟩)
  | other t => simp [Event.recognizedShape] at h

/-- Witness for C3 at a concrete charge-failed envelope. -/
theorem C3_witness :
    sampleChargeEvent.recognizedShape = true ∧
    ((∀ pi, sampleChargeEvent.data = .paymentIntent pi →
        (normalizeEvent sampleChargeEvent).amount = some pi.amount ∧
        (normalizeEvent sampleChargeEvent).currency = some pi.currency) ∧
     (∀ inv, sampleChargeEvent.data = .invoice inv →
        (normalizeEvent sampleChargeEvent).amount = some inv.amount_due ∧
        (normalizeEvent sampleChargeEvent).currency = some inv.currency) ∧
     (∀ ch, sampleChargeEvent.data = .charge ch →
        (normalizeEvent sampleChargeEvent).amount = some ch.amount ∧
        (normalizeEvent sampleChargeEvent).currency = some ch.currency) ∧
     (normalizeEvent sampleChargeEvent).failed_at =
       some (isoOfEpochMillis (sampleChargeEvent.created * 1000))) :=
  ⟨rfl, C3_amount_currency_failedAt sampleChargeEvent rfl⟩

/-- C4: a delivery whose signature verification fails is answered with
status 400 carrying the verification error text, one log entry records
the failure, and neither the normalizer nor either channel runs (the
step trace is empty). -/
theorem C4_badSignature (m : String) (env : Env) :
    handleWebhook (.error m) env =
      (⟨400, .webhookError m⟩,
       ["Webhook signature verification failed: " ++ m], []) := rfl

/-- C5: a validly-signed delivery whose event type is not one of the
three recognized tags is acknowledged with status 200 and the JSON
acknowledgment body, logs an unhandled-event-type message, and runs
neither the normalizer nor either channel. -/
theorem C5_unrecognized (e : Event) (env : Env) (h : e.type ∉ recognizedTypes) :
    handleWebhook (.ok e) env =
      (⟨200, .receivedTrue⟩, ["Unhandled event type: " ++ e.type], []) := by
  simp [handleWebhook, h]

/-- Witness for C5 at a concrete unrecognized event type. -/
theorem C5_witness :
    sampleOtherEvent.type ∉ recognizedTypes ∧
    handleWebhook (.ok sampleOtherEvent) envAllOk =
      (⟨200, .receivedTrue⟩,
       ["Unhandled event type: " ++ sampleOtherEvent.type], []) :=
  ⟨by decide, C5_unrecognized sampleOtherEvent envAllOk (by decide)⟩

/-- C6: for every validly-signed delivery with a recognized event
shape, the step trace is exactly normalization, then the Notification
Channel invocation, then the Record Store Channel invocation, in that
order; the sequential trace means the store append starts only after
the notification attempt has completed. -/
theorem C6_notification_before_store (e : Event) (env : Env)
    (h : e.recognizedShape = true) :
    (handleWebhook (.ok e) env).2.2 =
      [.normalized (normalizeEvent e), .email (normalizeEvent e),
       .store (normalizeEvent e)] := by
  rw [handleWebhook_steps e env h, processFailedPayment_steps]

/-- Witness for C6 at a concrete invoice-payment-failed envelope. -/
theorem C6_witness :
    sampleInvoiceEvent.recognizedShape = true ∧
    (handleWebhook (.ok sampleInvoiceEvent) envAllOk).2.2 =
      [.normalized (normalizeEvent sampleInvoiceEvent),
       .email (normalizeEvent sampleInvoiceEvent),
       .store (normalizeEvent sampleInvoiceEvent)] :=
  ⟨rfl, C6_notification_before_store sampleInvoiceEvent envAllOk rfl⟩

/-- C7: after any sequence of appends the Log Sink holds at most 50
entries, and it holds exactly the most recent appends (the last 50,
oldest evicted first); every prefix of an append sequence is itself an
append sequence, so the bound holds after each append. -/
theorem C7_logSink (entries : List LogEntry) :
    (runLog entries).length ≤ 50 ∧ runLog entries = takeLast 50 entries := by
  have h := foldl_addLog entries [] (by simp)
  rw [List.nil_append] at h
  have h2 : runLog entries = takeLast 50 entries := h
  refine ⟨?_, h2⟩
  rw [h2]
  unfold takeLast
  rw [List.length_drop]
  omega

/-- C9: the Notification Channel function always resolves normally,
whatever the outcome of the underlying email-send call; when the send
call fails, the failure shows up only as a log entry. -/
theorem C9_notification_never_throws (pd : PaymentData) (env : Env) :
    (sendGmailAlert pd env).2 = .ok () ∧
    (∀ m, (∀ s, env.gmailSend s = .error m) → pd.currency.isSome = true →
      ("Error sending Gmail alert: " ++ m) ∈ (sendGmailAlert pd env).1) := by
  refine ⟨sendGmailAlert_resolves pd env, ?_⟩
  intro m hg hc
  rcases hcc : pd.currency with _ | c
  · rw [hcc] at hc; simp at hc
  · rw [sendGmailAlert_of_error pd env m c hcc hg]
    simp

/-- Witness for C9 at a concrete record and a failing send. -/
theorem C9_witness :
    (sendGmailAlert sparsePaymentData envGmailFail).2 = .ok () ∧
    ("Error sending Gmail alert: " ++ "gmail down") ∈
      (sendGmailAlert sparsePaymentData envGmailFail).1 :=
  ⟨(C9_notification_never_throws sparsePaymentData envGmailFail).1,
   (C9_notification_never_throws sparsePaymentData envGmailFail).2
     "gmail down" (fun _ => rfl) rfl⟩

/-- C2 counterexample: for a payment-intent-failed envelope whose
payload has no last-error object, the normalizer leaves `failure_code`
and `failure_message` undefined (`none`), so the record is not fully
populated before being handed to the channels, contrary to the claim. -/
theorem C2_counterexample :
    (normalizeEvent samplePIEvent).failure_code = none ∧
    (normalizeEvent samplePIEvent).failure_message = none := ⟨rfl, rfl⟩

/-- C2 amended: for every recognized shape, `payment_id`,
`customer_email`, `amount`, `currency` and `failed_at` are always
defined; `failure_code` and `failure_message` are defined for invoice
events (synthesized constants), but for a payment-intent event lacking
a last-error object they are left undefined. -/
theorem C2_amended (ev : Event) (h : ev.recognizedShape = true) :
    (normalizeEvent ev).payment_id.isSome = true ∧
    (normalizeEvent ev).customer_email.isSome = true ∧
    (normalizeEvent ev).amount.isSome = true ∧
    (normalizeEvent ev).currency.isSome = true ∧
    (normalizeEvent ev).failed_at.isSome = true ∧
    (∀ inv, ev.data = .invoice inv →
      (normalizeEvent ev).failure_code.isSome = true ∧
      (normalizeEvent ev).failure_message.isSome = true) ∧
    (∀ pi, ev.data = .paymentIntent pi → pi.last_payment_error = none →
      (normalizeEvent ev).failure_code = none ∧
      (normalizeEvent ev).failure_message = none) := by
  obtain ⟨cr, d⟩ := ev
  cases d with
  | paymentIntent pi =>
      refine ⟨rfl, rfl, rfl, rfl, rfl, ?_, ?_⟩
      · intro x hx; cases hx
      · intro x hx hle
        cases hx
        simp [normalizeEvent, hle]
  | invoice inv =>
      refine ⟨rfl, rfl, rfl, rfl, rfl, ?_, ?_⟩
      · intro x hx; cases hx; exact ⟨rfl, rfl⟩
      · intro x hx; cases hx
  | charge ch =>
      refine ⟨rfl, rfl, rfl, rfl, rfl, ?_, ?_⟩
      · intro x hx; cases hx
      · intro x hx; cases hx
  | other t => simp [Event.recognizedShape] at h

/-- Witness for the amended C2 at a concrete payment-intent envelope
with no last-error object. -/
theorem C2_witness :
    samplePIEvent.recognizedShape = true ∧
    ((normalizeEvent samplePIEvent).payment_id.isSome = true ∧
     (normalizeEvent samplePIEvent).customer_email.isSome = true ∧
     (normalizeEvent samplePIEvent).amount.isSome = true ∧
     (normalizeEvent samplePIEvent).currency.isSome = true ∧
     (normalizeEvent samplePIEvent).failed_at.isSome = true ∧
     (∀ inv, samplePIEvent.data = .invoice inv →
       (normalizeEvent samplePIEvent).failure_code.isSome = true ∧
       (normalizeEvent samplePIEvent).failure_message.isSome = true) ∧
     (∀ pi, samplePIEvent.data = .paymentIntent pi →
       pi.last_payment_error = none →
       (normalizeEvent samplePIEvent).failure_code = none ∧
       (normalizeEvent samplePIEvent).failure_message = none)) :=
  ⟨rfl, C2_amended samplePIEvent rfl⟩

/-- C8 counterexample: a charge whose receipt email is present but
empty is not mapped to that receipt email — JavaScript truthiness makes
the code fall through to the billing-details email, contrary to the
claim that a present receipt email is always used. -/
theorem C8_counterexample :
    (normalizeEvent sampleEmptyReceiptEvent).customer_email = some "b@x.com" ∧
    (normalizeEvent sampleEmptyReceiptEvent).customer_email ≠ some "" := by
  exact ⟨rfl, by decide⟩

/-- C8 amended: for every charge-failed envelope the normalizer derives
`customer_email` by the ordered fallback on non-empty values: the
receipt email when present and non-empty, else the billing-details
email when present and non-empty, else the sentinel Unknown. -/
theorem C8_amended (ch : Charge) (created : Nat) :
    (normalizeEvent ⟨created, .charge ch⟩).customer_email =
      some (chargeEmailAmended ch) := by
  show some (jsOr (jsOrOpt ch.receipt_email
      (ch.billing_details.bind (fun b => b.email))) "Unknown") =
    some (chargeEmailAmended ch)
  congr 1
  unfold chargeEmailAmended chargeBillingFallback
  rcases hr : ch.receipt_email with _ | r
  · rcases hb : ch.billing_details.bind (fun b => b.email) with _ | s
    · rfl
    · by_cases hs : s = ""
      · subst hs; rfl
      · have hbe : (s == "") = false := by simpa using hs
        simp [jsOr, jsOrOpt, hbe, hs]
  · by_cases hre : r = ""
    · subst hre
      rcases hb : ch.billing_details.bind (fun b => b.email) with _ | s
      · rfl
      · by_cases hs : s = ""
        · subst hs; rfl
        · have hbe : (s == "") = false := by simpa using hs
          simp [jsOr, jsOrOpt, hbe, hs]
    · have hbe : (r == "") = false := by simpa using hre
      simp [jsOr, jsOrOpt, hbe, hre]

/-- C10: in the row handed to the Airtable create call, Customer Email,
Failure Code and Failure Message are the sentinel Unknown whenever the
corresponding record field is absent or empty, and each of the three is
always populated (non-empty); `_hc` records that the row is only built
once the record's currency is known defined. -/
theorem C10_rowDefaults (pd : PaymentData) (c now : String)
    (_hc : pd.currency = some c) :
    ((pd.customer_email = none ∨ pd.customer_email = some "") →
       (mkAirtableFields pd c now).customerEmail = "Unknown") ∧
    ((pd.failure_code = none ∨ pd.failure_code = some "") →
       (mkAirtableFields pd c now).failureCode = "Unknown") ∧
    ((pd.failure_message = none ∨ pd.failure_message = some "") →
       (mkAirtableFields pd c now).failureMessage = "Unknown") ∧
    (mkAirtableFields pd c now).customerEmail ≠ "" ∧
    (mkAirtableFields pd c now).failureCode ≠ "" ∧
    (mkAirtableFields pd c now).failureMessage ≠ "" := by
  refine ⟨?_, ?_, ?_, ?_, ?_, ?_⟩
  · rintro (h | h) <;> simp [mkAirtableFields, h, jsOr]
  · rintro (h | h) <;> simp [mkAirtableFields, h, jsOr]
  · rintro (h | h) <;> simp [mkAirtableFields, h, jsOr]
  · exact jsOr_ne_empty pd.customer_email "Unknown" (by decide)
  · exact jsOr_ne_empty pd.failure_code "Unknown" (by decide)
  · exact jsOr_ne_empty pd.failure_message "Unknown" (by decide)

/-- Witness for C10 at a concrete record with absent and empty optional
fields. -/
theorem C10_witness :
    sparsePaymentData.currency = some "usd" ∧
    (((sparsePaymentData.customer_email = none ∨
        sparsePaymentData.customer_email = some "") →
       (mkAirtableFields sparsePaymentData "usd" "t0").customerEmail = "Unknown") ∧
     ((sparsePaymentData.failure_code = none ∨
        sparsePaymentData.failure_code = some "") →
       (mkAirtableFields sparsePaymentData "usd" "t0").failureCode = "Unknown") ∧
     ((sparsePaymentData.failure_message = none ∨
        sparsePaymentData.failure_message = some "") →
       (mkAirtableFields sparsePaymentData "usd" "t0").failureMessage = "Unknown") ∧
     (mkAirtableFields sparsePaymentData "usd" "t0").customerEmail ≠ "" ∧
     (mkAirtableFields sparsePaymentData "usd" "t0").failureCode ≠ "" ∧
     (mkAirtableFields sparsePaymentData "usd" "t0").failureMessage ≠ "") :=
  ⟨rfl, C10_rowDefaults sparsePaymentData "usd" "t0" rfl⟩

/-- C1 counterexample: with a recognized charge-failed event, a failing
Gmail send and a succeeding Airtable create, the dispatcher still
invokes the Record Store Channel and answers 200, not 500 — the
notification failure is swallowed inside the channel, so the claimed
sequential abort does not happen. -/
theorem C1_counterexample :
    (handleWebhook (.ok sampleChargeEvent) envGmailFail).1.status = 200 ∧
    Step.store (normalizeEvent sampleChargeEvent) ∈
      (handleWebhook (.ok sampleChargeEvent) envGmailFail).2.2 := by
  constructor
  · rfl
  · decide

/-- C1 amended: when the Notification Channel's underlying send fails,
the error is caught inside the channel and logged; the Record Store
Channel is still invoked with the same record, and when the store
append succeeds the dispatcher returns the success acknowledgment
(HTTP 200), not a server error. -/
theorem C1_amended (e : Event) (env : Env) (m rid : String)
    (h : e.recognizedShape = true)
    (hg : ∀ s, env.gmailSend s = .error m)
    (ha : ∀ f, env.airtableCreate f = .ok rid) :
    handleWebhook (.ok e) env =
      (⟨200, .receivedTrue⟩,
       ["Processing failed payment: " ++ showJs (normalizeEvent e).payment_id,
        "Error sending Gmail alert: " ++ m,
        "Added failed payment record to Airtable: " ++ rid,
        "Successfully processed failed payment: " ++
          showJs (normalizeEvent e).payment_id,
        "Webhook processed successfully: " ++ e.type],
       [.normalized (normalizeEvent e), .email (normalizeEvent e),
        .store (normalizeEvent e)]) := by
  have hp := processFailedPayment_gmailFail e env m rid h hg ha
  unfold handleWebhook
  simp only [recognizedShape_mem e h, if_pos, hp]
  simp

/-- Witness for the amended C1 at a concrete charge-failed envelope
with a failing Gmail send and a succeeding Airtable create. -/
theorem C1_witness :
    sampleChargeEvent.recognizedShape = true ∧
    handleWebhook (.ok sampleChargeEvent) envGmailFail =
      (⟨200, .receivedTrue⟩,
       ["Processing failed payment: " ++
          showJs (normalizeEvent sampleChargeEvent).payment_id,
        "Error sending Gmail alert: " ++ "gmail down",
        "Added failed payment record to Airtable: " ++ "rec123",
        "Successfully processed failed payment: " ++
          showJs (normalizeEvent sampleChargeEvent).payment_id,
        "Webhook processed successfully: " ++ sampleChargeEvent.type],
       [.normalized (normalizeEvent sampleChargeEvent),
        .email (normalizeEvent sampleChargeEvent),
        .store (normalizeEvent sampleChargeEvent)]) :=
  ⟨rfl, C1_amended sampleChargeEvent envGmailFail "gmail down" "rec123" rfl
    (fun _ => rfl) (fun _ => rfl)⟩

end StripeMonitor
